import Mathlib

set_option autoImplicit false

/-
Shallow embedding of src/web_scraping.py (class SentimentScraper).

The platform SDK calls (googleapiclient request execution, praw submission
fetching) are modelled as explicit stores passed to each operation: a list of
page responses for YouTube, a thread lookup function for Reddit.  A raised
exception from an SDK call is an `Except.error`; the source catches every
exception at the boundary of each scrape method and returns an empty
DataFrame there.
-/

namespace WebScraping

/-- Tabular value corresponding to a pandas DataFrame: the column names and
the rows, each row a list of string cells.  pandas infers the columns from
the record dictionaries, so a frame built from an empty list of records
(pd.DataFrame([]) or pd.DataFrame()) has no columns at all. -/
structure DataFrame where
  columns : List String
  rows : List (List String)
deriving DecidableEq, Repr

/-- Value of pd.DataFrame() with no data: no columns and no rows. -/
def emptyFrame : DataFrame := ⟨[], []⟩

/-- Text produced by DataFrame.to_csv(index=False, encoding="utf-8"): the
header line (column names joined by commas) followed by one line per row.
Cell quoting is not modelled; no claim evaluates to_csv on cells containing
commas or quotes. -/
def to_csv (df : DataFrame) : String :=
  String.intercalate "," df.columns ++ "\n" ++
    String.join (df.rows.map (fun r => String.intercalate "," r ++ "\n"))

/-- Observable content written by SentimentScraper.save_to_csv
(web_scraping.py lines 207-231): the method creates the output directory,
derives a timestamped path and writes df.to_csv(index=False,
encoding="utf-8") there.  Directory and path construction are file-system
effects outside the model; the behaviour kept is the text written. -/
def save_to_csv (df : DataFrame) : String := to_csv df

/-! ## YouTube adapter (scrape_youtube_comments, lines 77-133) -/

/-- Innermost snippet dictionary of one commentThreads item, reached as
item["snippet"]["topLevelComment"]["snippet"].  Each field is a dictionary
entry whose absence raises KeyError in the source, hence Option. -/
structure YCommentSnippet where
  textDisplay : Option String
  authorDisplayName : Option String
  likeCount : Option Int
  publishedAt : Option String
deriving DecidableEq, Repr

/-- Dictionary item["snippet"]["topLevelComment"]. -/
structure YTopLevelComment where
  snippet : Option YCommentSnippet
deriving DecidableEq, Repr

/-- Dictionary item["snippet"]. -/
structure YItemSnippet where
  topLevelComment : Option YTopLevelComment
deriving DecidableEq, Repr

/-- One element of response["items"]. -/
structure YItem where
  snippet : Option YItemSnippet
deriving DecidableEq, Repr

/-- One record appended to comments_data by scrape_youtube_comments
(lines 108-113). -/
structure YRow where
  comment : String
  author : String
  likes : Int
  published_at : String
deriving DecidableEq, Repr

/-- Dictionary lookup: a present key yields its value, a missing key raises
KeyError. -/
def keyOrError {α : Type} (msg : String) : Option α → Except String α
  | some a => .ok a
  | none => .error msg

/-- Decoding of one commentThreads item, mirroring the dictionary accesses
at lines 107-113 of the source in order: the nested access
item["snippet"]["topLevelComment"]["snippet"], then the four field reads.
A missing key is a KeyError, which in the source propagates out of the for
loop into the outer try of scrape_youtube_comments. -/
def decodeYoutubeItem (item : YItem) : Except String YRow := do
  let s1 ← keyOrError "KeyError: snippet" item.snippet
  let tlc ← keyOrError "KeyError: topLevelComment" s1.topLevelComment
  let cd ← keyOrError "KeyError: snippet" tlc.snippet
  let text ← keyOrError "KeyError: textDisplay" cd.textDisplay
  let author ← keyOrError "KeyError: authorDisplayName" cd.authorDisplayName
  let likes ← keyOrError "KeyError: likeCount" cd.likeCount
  let published ← keyOrError "KeyError: publishedAt" cd.publishedAt
  .ok ⟨text, author, likes, published⟩

/-- Decoding of response["items"] by the for loop at lines 106-113: items
are decoded left to right and the first failure aborts the loop (the
KeyError escapes to the outer try). -/
def decodeItems : List YItem → Except String (List YRow)
  | [] => .ok []
  | item :: rest =>
    match decodeYoutubeItem item with
    | .error e => .error e
    | .ok row =>
      match decodeItems rest with
      | .error e => .error e
      | .ok rows => .ok (row :: rows)

/-- One response of youtube.commentThreads().list(...).execute(): the items
of the page and the optional nextPageToken. -/
structure YResponse where
  items : List YItem
  nextPageToken : Option String
deriving DecidableEq, Repr

/-- The while loop at lines 103-125.  The store lists the successive
results of request.execute(): either a response or a raised network/API
exception.  Each iteration decodes the page items, then either follows the
nextPageToken into the next stored response or breaks when the token is
absent.  Any exception aborts the loop with an error carrying away the
accumulated rows (the source's comments_data list is then never returned). -/
def youtubePageLoop : List (Except String YResponse) → List YRow →
    Except String (List YRow)
  | [], acc => .ok acc
  | r :: rest, acc =>
    match r with
    | .error e => .error e
    | .ok resp =>
      match decodeItems resp.items with
      | .error e => .error e
      | .ok rows =>
        match resp.nextPageToken with
        | some _ => youtubePageLoop rest (acc ++ rows)
        | none => .ok (acc ++ rows)

/-- Column names of the YouTube comments frame. -/
def youtubeCols : List String := ["comment", "author", "likes", "published_at"]

/-- Cells of one YouTube record, in the canonical column order. -/
def yRowCells (r : YRow) : List String :=
  [r.comment, r.author, toString r.likes, r.published_at]

/-- Value of pd.DataFrame(comments_data) for the YouTube records: an empty
record list produces a frame with no columns. -/
def youtubeFrame (rows : List YRow) : DataFrame :=
  if rows.isEmpty then emptyFrame else ⟨youtubeCols, rows.map yRowCells⟩

/-- SentimentScraper.scrape_youtube_comments (lines 77-133).  The store
models the sequence of page responses the API delivers for the requested
video id.  On normal termination the collected records become a DataFrame;
any exception reaches the except clause at lines 131-133, which logs and
returns pd.DataFrame() — an empty frame, discarding comments_data. -/
def scrape_youtube_comments (store : List (Except String YResponse)) :
    DataFrame :=
  match youtubePageLoop store [] with
  | .ok rows => youtubeFrame rows
  | .error _ => emptyFrame

/-! ## Reddit adapter (scrape_reddit_thread, lines 135-177) -/

/-- Node of a praw comment forest: either a real comment (its body always
present, its author possibly None for deleted accounts, net score, creation
time as Unix epoch seconds, and child replies) or a MoreComments
placeholder hiding further nodes behind one extra fetch.  MoreComments
objects have no body attribute, which is what the hasattr check at line 163
detects. -/
inductive RNode where
  | comment (body : String) (author : Option String) (score : Int)
      (created_utc : Int) (replies : List RNode)
  | more (children : List RNode)

mutual

/-- Expansion of one node by submission.comments.replace_more(limit=None):
a MoreComments placeholder is replaced in place by the nodes it hides
(recursively expanded), a real comment keeps its place with its replies
expanded. -/
def replaceMoreNode : RNode → List RNode
  | .comment b a s c rs => [.comment b a s c (replaceMoreList rs)]
  | .more cs => replaceMoreList cs

/-- Expansion of a sibling list by replace_more(limit=None). -/
def replaceMoreList : List RNode → List RNode
  | [] => []
  | n :: t => replaceMoreNode n ++ replaceMoreList t

end

mutual

/-- Weight of a node, used as the termination measure of the flattening
queue. -/
def nodeWeight : RNode → Nat
  | .comment _ _ _ _ rs => 1 + listWeight rs
  | .more cs => 1 + listWeight cs

/-- Weight of a node list. -/
def listWeight : List RNode → Nat
  | [] => 0
  | n :: t => nodeWeight n + listWeight t

end

/-- Replies enqueued by CommentForest.list() for one dequeued node: the
children of a real comment; a MoreComments placeholder contributes none. -/
def commentReplies : RNode → List RNode
  | .comment _ _ _ _ rs => rs
  | .more _ => []

theorem listWeight_append (a b : List RNode) :
    listWeight (a ++ b) = listWeight a + listWeight b := by
  induction a with
  | nil => simp [listWeight]
  | cons n t ih => simp [listWeight, ih]; ring

theorem listWeight_commentReplies_lt (c : RNode) :
    listWeight (commentReplies c) < nodeWeight c := by
  cases c with
  | comment b a s cu rs => simp only [commentReplies, nodeWeight]; omega
  | more cs =>
    simp only [commentReplies, nodeWeight, listWeight]
    omega

theorem listWeight_queue_step (c : RNode) (rest : List RNode) :
    listWeight (rest ++ commentReplies c) < listWeight (c :: rest) := by
  simp only [listWeight, listWeight_append]
  have h := listWeight_commentReplies_lt c
  omega

/-- CommentForest.list(): breadth-first flattening of the forest with a
queue, as implemented by praw (pop the front, append it to the output,
extend the queue with its replies unless it is a MoreComments). -/
def commentsList (queue : List RNode) : List RNode :=
  match queue with
  | [] => []
  | c :: rest => c :: commentsList (rest ++ commentReplies c)
termination_by listWeight queue
decreasing_by
  exact listWeight_queue_step _ _

/-- One record appended to comments_data by scrape_reddit_thread
(lines 164-169). -/
structure RRow where
  comment : String
  author : String
  score : Int
  created_utc : Int
deriving DecidableEq, Repr

/-- Value of datetime.fromtimestamp(epoch): the naive local wall-clock
datetime, i.e. the instant shifted by the local UTC offset tzOffset (in
seconds).  The model keeps the naive datetime as seconds read off the
local clock since 1970-01-01 00:00:00. -/
def fromtimestamp (epoch tzOffset : Int) : Int := epoch + tzOffset

/-- Decoding of one node by the loop body at lines 162-169: a node without
a body attribute (MoreComments) is skipped by the hasattr guard; a real
comment yields a record with str(comment.author) or the "[deleted]"
sentinel, the score, and datetime.fromtimestamp(comment.created_utc). -/
def decodeRedditNode (tzOffset : Int) : RNode → Option RRow
  | .comment body author score created _ =>
      some ⟨body, (match author with | some a => a | none => "[deleted]"),
            score, fromtimestamp created tzOffset⟩
  | .more _ => none

/-- Column names of the Reddit comments frame. -/
def redditCols : List String := ["comment", "author", "score", "created_utc"]

/-- Cells of one Reddit record, in the canonical column order; the naive
datetime cell is rendered from the local-clock seconds. -/
def rRowCells (r : RRow) : List String :=
  [r.comment, r.author, toString r.score, toString r.created_utc]

/-- Value of pd.DataFrame(comments_data) for the Reddit records: an empty
record list produces a frame with no columns. -/
def redditFrame (rows : List RRow) : DataFrame :=
  if rows.isEmpty then emptyFrame else ⟨redditCols, rows.map rRowCells⟩

/-- Store of Reddit threads: self.reddit.submission(url=thread_url)
delivers the thread's comment forest for a url, or raises a network/API
exception. -/
abbrev RedditStore := String → Except String (List RNode)

/-- Records collected by scrape_reddit_thread before frame construction:
with include_replies the forest is fully expanded by
replace_more(limit=None) and flattened by .list(); without it only the
top-level forest is iterated.  Either way the loop keeps nodes with a body
attribute and decodes them. -/
def redditRows (store : RedditStore) (tzOffset : Int) (thread_url : String)
    (include_replies : Bool) : Except String (List RRow) :=
  match store thread_url with
  | .error e => .error e
  | .ok forest =>
    let comments :=
      if include_replies then commentsList (replaceMoreList forest)
      else forest
    .ok (comments.filterMap (decodeRedditNode tzOffset))

/-- SentimentScraper.scrape_reddit_thread (lines 135-177).  A raised
exception reaches the except clause at lines 175-177, which logs and
returns pd.DataFrame() — an empty frame. -/
def scrape_reddit_thread (store : RedditStore) (tzOffset : Int)
    (thread_url : String) (include_replies : Bool := true) : DataFrame :=
  match redditRows store tzOffset thread_url include_replies with
  | .ok rows => redditFrame rows
  | .error _ => emptyFrame

/-- Assignment df["source_url"] = url at line 197: pandas appends a new
column holding url on every row. -/
def addSourceUrl (df : DataFrame) (url : String) : DataFrame :=
  ⟨df.columns ++ ["source_url"], df.rows.map (fun r => r ++ [url])⟩

/-- pd.concat(frames, ignore_index=True) over frames that share one column
set: the columns of the first frame and the rows of all frames in order. -/
def concatFrames (dfs : List DataFrame) : DataFrame :=
  match dfs with
  | [] => emptyFrame
  | d :: _ => ⟨d.columns, (dfs.map DataFrame.rows).flatten⟩

/-- Body of the for loop at lines 194-198 of
scrape_multiple_reddit_threads: the url is scraped with
scrape_reddit_thread(url) — include_replies left at its default True — and
contributes its frame with the source_url column added when nonempty;
empty frames are skipped. -/
def threadContribution (store : RedditStore) (tzOffset : Int)
    (url : String) : Option DataFrame :=
  let df := scrape_reddit_thread store tzOffset url true
  if df.rows.isEmpty then none else some (addSourceUrl df url)

/-- SentimentScraper.scrape_multiple_reddit_threads (lines 179-205): the
surviving per-thread frames (all_comments) are concatenated with
pd.concat(ignore_index=True); with no survivor the result is
pd.DataFrame(). -/
def scrape_multiple_reddit_threads (store : RedditStore) (tzOffset : Int)
    (thread_urls : List String) : DataFrame :=
  match thread_urls.filterMap (threadContribution store tzOffset) with
  | [] => emptyFrame
  | d :: ds => concatFrames (d :: ds)

/-! ## Environment validation (lines 31-75) -/

/-- Process environment: os.getenv. -/
abbrev Env := String → Option String

/-- Required credential variables, in the order listed at lines 38-43. -/
def required_vars : List String :=
  ["YOUTUBE_API_KEY", "REDDIT_CLIENT_ID", "REDDIT_CLIENT_SECRET",
   "REDDIT_USER_AGENT"]

/-- Truthiness of os.getenv(var) as tested by `not os.getenv(var)`: an
unset variable yields None and an empty string is falsy too. -/
def getenvTruthy (env : Env) (v : String) : Bool :=
  match env v with
  | none => false
  | some s => !(s == "")

/-- List comprehension at line 45: the required variables that are unset or
empty, in order. -/
def missing_vars (env : Env) : List String :=
  required_vars.filter (fun v => !(getenvTruthy env v))

/-- Outcome of SentimentScraper.__init__: either sys.exit(code) after
reporting the missing variables, or a scraper holding the constructed API
clients (modelled by the credential strings they were built from). -/
inductive InitOutcome where
  | exited (code : Nat) (missingReported : List String)
  | scraper (youtubeKey : String) (redditClientId : String)
deriving DecidableEq, Repr

/-- SentimentScraper.__init__ (lines 31-34): _validate_environment runs
first and calls sys.exit(1) after logging the missing variables when any
required variable is unset or empty; only then does _initialize_clients
construct the YouTube and Reddit clients from the environment values. -/
def scraperInit (env : Env) : InitOutcome :=
  match missing_vars env with
  | [] => .scraper ((env "YOUTUBE_API_KEY").getD "")
      ((env "REDDIT_CLIENT_ID").getD "")
  | ms => .exited 1 ms

/-! ## Helper lemmas -/

/-- Boolean success test for a decode or fetch result. -/
def exceptOk {ε α : Type} : Except ε α → Bool
  | .ok _ => true
  | .error _ => false

/-- Rows a page contributes when its items decode, the empty list when the
decode raises. -/
def pageRows (p : YResponse) : List YRow :=
  match decodeItems p.items with
  | .ok rows => rows
  | .error _ => []

/-- Shape of the response chain a fully successful video walk sees: every
response decodes, every response but the last carries a nextPageToken, and
the last carries none. -/
def chainOk : List YResponse → Bool
  | [] => false
  | p :: rest =>
    exceptOk (decodeItems p.items) &&
    (match rest with
     | [] => p.nextPageToken.isNone
     | _ :: _ => p.nextPageToken.isSome && chainOk rest)

/-- Shape of the responses consumed before a failure: every one decodes and
carries a nextPageToken, so the loop keeps going. -/
def chainAdvances (store : List YResponse) : Bool :=
  store.all (fun p => exceptOk (decodeItems p.items) && p.nextPageToken.isSome)

theorem decodeItems_ok_length (its : List YItem) (rows : List YRow)
    (h : decodeItems its = .ok rows) : rows.length = its.length := by
  induction its generalizing rows with
  | nil =>
    injection h with h2
    simp [← h2]
  | cons item rest ih =>
    cases hd : decodeYoutubeItem item with
    | error e => simp [decodeItems, hd] at h
    | ok row =>
      cases hr : decodeItems rest with
      | error e => simp [decodeItems, hd, hr] at h
      | ok rows2 =>
        simp only [decodeItems, hd, hr] at h
        injection h with h2
        simp [← h2, ih rows2 hr]

theorem youtubeFrame_rows_length (rows : List YRow) :
    (youtubeFrame rows).rows.length = rows.length := by
  by_cases h : rows.isEmpty
  · have h2 : rows = [] := List.isEmpty_iff.mp h
    subst h2
    simp [youtubeFrame, emptyFrame]
  · simp [youtubeFrame, h]

theorem redditFrame_rows_length (rows : List RRow) :
    (redditFrame rows).rows.length = rows.length := by
  by_cases h : rows.isEmpty
  · have h2 : rows = [] := List.isEmpty_iff.mp h
    subst h2
    simp [redditFrame, emptyFrame]
  · simp [redditFrame, h]

/-- The loop walks a run of decodable token-carrying responses, collecting
their rows, and then continues with whatever tail follows. -/
theorem youtubePageLoop_advance (pre : List YResponse)
    (h : chainAdvances pre = true)
    (tail : List (Except String YResponse)) (acc : List YRow) :
    youtubePageLoop (pre.map Except.ok ++ tail) acc =
      youtubePageLoop tail (acc ++ (pre.map pageRows).flatten) := by
  induction pre generalizing acc with
  | nil => simp
  | cons p rest ih =>
    simp only [chainAdvances, List.all_cons, Bool.and_eq_true] at h
    obtain ⟨⟨hdec, htok⟩, hrest⟩ := h
    obtain ⟨rows, hrows⟩ : ∃ rows, decodeItems p.items = .ok rows := by
      cases hd : decodeItems p.items with
      | ok rows => exact ⟨rows, rfl⟩
      | error e => rw [hd] at hdec; simp [exceptOk] at hdec
    obtain ⟨t, ht⟩ : ∃ t, p.nextPageToken = some t := by
      cases htt : p.nextPageToken with
      | some t => exact ⟨t, rfl⟩
      | none => rw [htt] at htok; simp at htok
    simp only [List.map_cons, List.cons_append, youtubePageLoop, hrows, ht,
      List.append_eq]
    rw [ih hrest]
    simp [pageRows, hrows, List.append_assoc]

theorem chainOk_advances_and_last (store : List YResponse)
    (h : chainOk store = true) :
    ((store.map pageRows).flatten).length =
      (store.map (fun p => p.items.length)).sum := by
  induction store with
  | nil => simp
  | cons p rest ih =>
    simp only [chainOk, Bool.and_eq_true] at h
    obtain ⟨hdec, htail⟩ := h
    obtain ⟨rows, hrows⟩ : ∃ rows, decodeItems p.items = .ok rows := by
      cases hd : decodeItems p.items with
      | ok rows => exact ⟨rows, rfl⟩
      | error e => rw [hd] at hdec; simp [exceptOk] at hdec
    have hlen : (pageRows p).length = p.items.length := by
      simp [pageRows, hrows, decodeItems_ok_length p.items rows hrows]
    cases rest with
    | nil => simp [hlen]
    | cons q qs =>
      simp only [Bool.and_eq_true] at htail
      have h2 := ih htail.2
      simp only [List.map_cons, List.flatten_cons, List.length_append,
        List.sum_cons] at h2 ⊢
      omega

theorem chainOk_split (store : List YResponse) (h : chainOk store = true) :
    ∃ pre last, store = pre ++ [last] ∧ chainAdvances pre = true ∧
      last.nextPageToken = none ∧
      exceptOk (decodeItems last.items) = true := by
  induction store with
  | nil => simp [chainOk] at h
  | cons p rest ih =>
    simp only [chainOk, Bool.and_eq_true] at h
    obtain ⟨hdec, htail⟩ := h
    cases rest with
    | nil =>
      exact ⟨[], p, by simp, by simp [chainAdvances],
        by simpa [Option.isNone_iff_eq_none] using htail, hdec⟩
    | cons q qs =>
      simp only [Bool.and_eq_true] at htail
      obtain ⟨pre, last, heq, hadv, hnone, hlast⟩ := ih htail.2
      refine ⟨p :: pre, last, by simp [heq], ?_, hnone, hlast⟩
      simp only [chainAdvances, List.all_cons, Bool.and_eq_true]
      exact ⟨⟨hdec, htail.1⟩, by simpa [chainAdvances] using hadv⟩

/-- Comment nodes carry a body attribute, MoreComments placeholders do
not. -/
def hasBody : RNode → Bool
  | .comment _ _ _ _ _ => true
  | .more _ => false

theorem filterMap_decode_length (tz : Int) (forest : List RNode) :
    (forest.filterMap (decodeRedditNode tz)).length =
      forest.countP (fun n => hasBody n) := by
  induction forest with
  | nil => rfl
  | cons n t ih =>
    cases n with
    | comment b a s c rs =>
      simp [decodeRedditNode, hasBody, List.countP_cons, ih]
    | more cs =>
      simp [decodeRedditNode, hasBody, List.countP_cons, ih]

theorem multi_rows_flatten (store : RedditStore) (tz : Int)
    (urls : List String) :
    (scrape_multiple_reddit_threads store tz urls).rows =
      ((urls.filterMap (threadContribution store tz)).map
        DataFrame.rows).flatten := by
  unfold scrape_multiple_reddit_threads
  cases h : urls.filterMap (threadContribution store tz) with
  | nil => simp [emptyFrame]
  | cons d ds => simp [concatFrames]

/-- Rows of the multi-thread frame: skipped empty frames contribute
nothing to a concatenation, so the rows are exactly the per-url tagged
rows in url order. -/
theorem multi_rows (store : RedditStore) (tz : Int) (urls : List String) :
    (scrape_multiple_reddit_threads store tz urls).rows =
      (urls.map (fun u =>
        (scrape_reddit_thread store tz u true).rows.map
          (fun r => r ++ [u]))).flatten := by
  rw [multi_rows_flatten]
  induction urls with
  | nil => rfl
  | cons u us ih =>
    cases hemp : (scrape_reddit_thread store tz u true).rows.isEmpty with
    | true =>
      have hrows := List.isEmpty_iff.mp hemp
      simp [List.filterMap_cons, threadContribution, hemp, hrows, ih]
    | false =>
      simp [List.filterMap_cons, threadContribution, hemp, addSourceUrl, ih]

/-! ## Concrete fixtures -/

/-- Item builder with every nested dictionary key present. -/
def yItemOf (t a : String) (lk : Int) (pa : String) : YItem :=
  ⟨some ⟨some ⟨some ⟨some t, some a, some lk, some pa⟩⟩⟩⟩

def exYItemA : YItem := yItemOf "great video" "alice" 3 "2024-01-01T00:00:00Z"

def exYItemB : YItem := yItemOf "nice" "carol" 0 "2024-01-02T00:00:00Z"

def exYItemC : YItem := yItemOf "meh" "dave" 1 "2024-01-03T00:00:00Z"

/-- Item whose innermost snippet lacks the likeCount key: decoding it
raises KeyError in the source. -/
def exYBadItem : YItem :=
  ⟨some ⟨some ⟨some ⟨some "broken", some "eve", none,
    some "2024-01-04T00:00:00Z"⟩⟩⟩⟩

def exYPage1 : YResponse := ⟨[exYItemA], some "tok1"⟩

def exYPage2 : YResponse := ⟨[exYItemB, exYItemC], none⟩

def exYStore : List YResponse := [exYPage1, exYPage2]

def exUrlC6 : String := "https://www.reddit.com/r/games/comments/abc/teaser/"

/-- Thread with two top-level comments, each carrying one reply. -/
def exForestC6 : List RNode :=
  [.comment "top one" (some "u1") 10 1000
     [.comment "reply one" (some "u2") 2 1100 []],
   .comment "top two" none 7 1200
     [.comment "reply two" (some "u3") 1 1300 []]]

def exStoreC6 : RedditStore :=
  fun u => if u = exUrlC6 then .ok exForestC6 else .error "404 not found"

def exUrlC9 : String := "https://www.reddit.com/r/test/comments/xyz/thread/"

/-- Thread with a single comment created at Unix epoch 0. -/
def exForestC9 : List RNode := [.comment "hi" (some "bob") 5 0 []]

def exStoreC9 : RedditStore :=
  fun u => if u = exUrlC9 then .ok exForestC9 else .error "404 not found"

/-! ## Claims -/

/-- Claim C5 (confirmed): scrape_youtube_comments pages through the video
via the explicit nextPageToken chain; with every page decoding and every
page but the last carrying a token (no transient failures), the frame holds
exactly N rows where N is the total item count across the pages; and the
loop breaks exactly when a response carries no nextPageToken, ignoring
anything that would come after. -/
theorem youtube_pagination_complete :
    (∀ store : List YResponse, chainOk store = true →
      (scrape_youtube_comments (store.map Except.ok)).rows.length =
        (store.map (fun p => p.items.length)).sum) ∧
    (∀ (p : YResponse) (rest : List (Except String YResponse)),
      p.nextPageToken = none →
      scrape_youtube_comments (Except.ok p :: rest) =
        youtubeFrame (pageRows p)) := by
  constructor
  · intro store h
    obtain ⟨pre, last, heq, hadv, hnone, hlast⟩ := chainOk_split store h
    obtain ⟨rows, hrows⟩ : ∃ rows, decodeItems last.items = .ok rows := by
      cases hd : decodeItems last.items with
      | ok rows => exact ⟨rows, rfl⟩
      | error e => rw [hd] at hlast; simp [exceptOk] at hlast
    subst heq
    have hloop := youtubePageLoop_advance pre hadv
      ([last].map Except.ok) []
    have hresult : youtubePageLoop ((pre ++ [last]).map Except.ok) [] =
        .ok ((pre.map pageRows).flatten ++ rows) := by
      rw [List.map_append, hloop]
      simp only [List.map_cons, List.map_nil, youtubePageLoop, hrows, hnone]
      simp
    simp only [scrape_youtube_comments, hresult]
    rw [youtubeFrame_rows_length]
    have htot := chainOk_advances_and_last (pre ++ [last]) h
    simp only [List.map_append, List.flatten_append] at htot
    simpa [pageRows, hrows] using htot
  · intro p rest htok
    cases hd : decodeItems p.items with
    | ok rows =>
      simp [scrape_youtube_comments, youtubePageLoop, hd, htok, pageRows]
    | error e =>
      simp [scrape_youtube_comments, youtubePageLoop, hd, htok, pageRows,
        youtubeFrame, emptyFrame]

theorem youtube_pagination_complete_witness :
    chainOk exYStore = true ∧
    (scrape_youtube_comments (exYStore.map Except.ok)).rows.length = 3 := by
  refine ⟨by decide, ?_⟩
  have h := youtube_pagination_complete.1 exYStore (by decide)
  rw [h]
  decide

/-- Claim C6 (confirmed): for a Reddit thread with two top-level comments
each carrying one reply, scrape_reddit_thread with include_replies=True
expands the forest with replace_more(limit=None), flattens it with .list()
and yields 4 comment rows; with include_replies=False only the 2 top-level
comments are yielded. -/
theorem reddit_include_replies_counts :
    (scrape_reddit_thread exStoreC6 0 exUrlC6 true).rows.length = 4 ∧
    (scrape_reddit_thread exStoreC6 0 exUrlC6 false).rows.length = 2 := by
  constructor
  · simp [scrape_reddit_thread, redditRows, exStoreC6, exForestC6,
      commentsList, replaceMoreList, replaceMoreNode, commentReplies,
      decodeRedditNode, fromtimestamp, redditFrame, rRowCells, redditCols]
  · decide

/-- Claim C7 (confirmed): when a required credential variable is unset or
empty, SentimentScraper.__init__ runs _validate_environment, which reports
exactly the missing variables and exits with status 1; no API client is
constructed (the outcome is exited, not scraper). -/
theorem missing_credentials_exit :
    ∀ (env : Env) (v : String), v ∈ required_vars →
      getenvTruthy env v = false →
      scraperInit env = .exited 1 (missing_vars env) ∧
        v ∈ missing_vars env := by
  intro env v hv hfalse
  have hmem : v ∈ missing_vars env := by
    simp [missing_vars, List.mem_filter, hv, hfalse]
  refine ⟨?_, hmem⟩
  cases hms : missing_vars env with
  | nil => rw [hms] at hmem; simp at hmem
  | cons m ms => simp [scraperInit, hms]

theorem missing_credentials_exit_witness :
    ("YOUTUBE_API_KEY" ∈ required_vars ∧
      getenvTruthy (fun _ => none) "YOUTUBE_API_KEY" = false) ∧
    scraperInit (fun _ => none) =
      .exited 1 ["YOUTUBE_API_KEY", "REDDIT_CLIENT_ID",
        "REDDIT_CLIENT_SECRET", "REDDIT_USER_AGENT"] := by
  refine ⟨⟨by decide, by decide⟩, ?_⟩
  have h := (missing_credentials_exit (fun _ => none) "YOUTUBE_API_KEY"
    (by decide) (by decide)).1
  rw [h]
  decide

/-- Claim C1 as stated is false: a network error on the second page fetch
makes scrape_youtube_comments return pd.DataFrame() — the empty frame —
even though the first page had already decoded into one comment record;
the already-collected comment is discarded, not returned. -/
theorem partial_success_counterexample :
    scrape_youtube_comments [Except.ok exYPage1, Except.error "HttpError 503"] =
      emptyFrame ∧
    pageRows exYPage1 =
      [⟨"great video", "alice", 3, "2024-01-01T00:00:00Z"⟩] := by
  constructor
  · decide
  · decide

/-- Claim C1 (corrected): a network or API error raised during any page
fetch after a run of successfully decoded pages makes
scrape_youtube_comments return the empty frame, discarding every comment
collected up to the failure point; it does not raise to the caller.
Likewise scrape_reddit_thread returns the empty frame when the thread
fetch raises. -/
theorem error_discards_collected :
    (∀ (pre : List YResponse) (e : String)
        (rest : List (Except String YResponse)),
      chainAdvances pre = true →
      scrape_youtube_comments (pre.map Except.ok ++ Except.error e :: rest) =
        emptyFrame) ∧
    (∀ (store : RedditStore) (tz : Int) (url : String) (inc : Bool)
        (e : String),
      store url = .error e →
      scrape_reddit_thread store tz url inc = emptyFrame) := by
  constructor
  · intro pre e rest hadv
    have hloop := youtubePageLoop_advance pre hadv (Except.error e :: rest) []
    simp [scrape_youtube_comments, hloop, youtubePageLoop]
  · intro store tz url inc e h
    simp [scrape_reddit_thread, redditRows, h]

theorem error_discards_collected_witness :
    (chainAdvances [exYPage1] = true ∧
      scrape_youtube_comments
        ([exYPage1].map Except.ok ++ Except.error "HttpError 503" :: []) =
        emptyFrame) ∧
    (exStoreC9 "https://bad.example/" = .error "404 not found" ∧
      scrape_reddit_thread exStoreC9 0 "https://bad.example/" true =
        emptyFrame) := by
  refine ⟨⟨by decide, ?_⟩, ⟨by simp [exStoreC9, exUrlC9], ?_⟩⟩
  · exact error_discards_collected.1 [exYPage1] "HttpError 503" []
      (by decide)
  · exact error_discards_collected.2 exStoreC9 0 "https://bad.example/"
      true "404 not found" (by simp [exStoreC9, exUrlC9])

/-- Claim C2 as stated is false: on a YouTube page of 2 items whose second
item lacks the likeCount key, the whole scrape returns 0 rows — the
KeyError escapes the for loop and the outer except returns the empty
frame — instead of the claimed 1 (skip) or 2 (sentinel fill) rows. -/
theorem per_item_decode_counterexample :
    (scrape_youtube_comments
      [Except.ok ⟨[exYItemA, exYBadItem], none⟩]).rows.length = 0 ∧
    exceptOk (decodeYoutubeItem exYItemA) = true ∧
    exceptOk (decodeYoutubeItem exYBadItem) = false ∧
    ([exYItemA, exYBadItem] : List YItem).length = 2 := by
  refine ⟨by decide, by decide, by decide, by decide⟩

/-- Claim C2 (corrected): on YouTube a decode failure (missing nested
field) on any item of any page aborts the entire scrape and returns the
empty frame, losing every other item of the page and of earlier pages.
Only the Reddit loop is best-effort per item, and only for the body
attribute: nodes without a body (MoreComments placeholders) are skipped
individually and the remaining nodes still decode. -/
theorem decode_failure_aborts_call :
    (∀ (pre : List YResponse) (p : YResponse)
        (rest : List (Except String YResponse)),
      chainAdvances pre = true →
      exceptOk (decodeItems p.items) = false →
      scrape_youtube_comments (pre.map Except.ok ++ Except.ok p :: rest) =
        emptyFrame) ∧
    (∀ (store : RedditStore) (tz : Int) (url : String)
        (forest : List RNode),
      store url = .ok forest →
      (scrape_reddit_thread store tz url false).rows.length =
        forest.countP (fun n => hasBody n)) := by
  constructor
  · intro pre p rest hadv hbad
    obtain ⟨e, he⟩ : ∃ e, decodeItems p.items = .error e := by
      cases hd : decodeItems p.items with
      | error e => exact ⟨e, rfl⟩
      | ok rows => rw [hd] at hbad; simp [exceptOk] at hbad
    have hloop := youtubePageLoop_advance pre hadv (Except.ok p :: rest) []
    simp [scrape_youtube_comments, hloop, youtubePageLoop, he]
  · intro store tz url forest h
    simp only [scrape_reddit_thread, redditRows, h, if_neg, Bool.false_eq_true,
      if_false]
    rw [redditFrame_rows_length]
    exact filterMap_decode_length tz forest

theorem decode_failure_aborts_call_witness :
    (chainAdvances [exYPage1] = true ∧
      exceptOk (decodeItems [exYItemA, exYBadItem]) = false ∧
      scrape_youtube_comments
        ([exYPage1].map Except.ok ++
          Except.ok ⟨[exYItemA, exYBadItem], some "tok2"⟩ :: []) =
        emptyFrame) ∧
    (exStoreC6 exUrlC6 = .ok exForestC6 ∧
      (scrape_reddit_thread exStoreC6 0 exUrlC6 false).rows.length =
        exForestC6.countP (fun n => hasBody n)) := by
  refine ⟨⟨by decide, by decide, ?_⟩, ⟨by simp [exStoreC6], ?_⟩⟩
  · exact decode_failure_aborts_call.1 [exYPage1]
      ⟨[exYItemA, exYBadItem], some "tok2"⟩ [] (by decide) (by decide)
  · exact decode_failure_aborts_call.2 exStoreC6 0 exUrlC6 exForestC6
      (by simp [exStoreC6])

/-- Claim C3 as stated is false: a Reddit comment created at Unix epoch 0
(the UTC instant 1970-01-01T00:00:00Z), scraped in a process whose local
zone is UTC+7 (offset 25200 s), is stored via datetime.fromtimestamp as
the naive local time 25200 — not the single UTC value 0 — so the timestamp
representation depends on the machine's timezone and drifts by the local
offset. -/
theorem utc_normalization_counterexample :
    (scrape_reddit_thread exStoreC9 25200 exUrlC9 true).rows =
      [["hi", "bob", "5", "25200"]] ∧
    ¬ (scrape_reddit_thread exStoreC9 25200 exUrlC9 true).rows =
      [["hi", "bob", "5", "0"]] := by
  have h : (scrape_reddit_thread exStoreC9 25200 exUrlC9 true).rows =
      [["hi", "bob", "5", "25200"]] := by
    simp [scrape_reddit_thread, redditRows, exStoreC9, exForestC9,
      commentsList, replaceMoreList, replaceMoreNode, commentReplies,
      decodeRedditNode, fromtimestamp, redditFrame, rRowCells,
      redditCols]
    decide
  exact ⟨h, by rw [h]; decide⟩

/-- Claim C3 (corrected): the two adapters keep two different timestamp
representations.  Reddit epochs pass through datetime.fromtimestamp, so
the stored value is the epoch shifted by the local UTC offset — it equals
the UTC instant exactly when the local offset is zero; YouTube timestamps
are not converted at all: the raw ISO-8601 publishedAt string of the item
is stored unchanged. -/
theorem timestamp_representation_amended :
    (∀ (tz : Int) (b a : String) (s e : Int),
      (scrape_reddit_thread (fun _ => .ok [.comment b (some a) s e []])
        tz "u" true).rows = [[b, a, toString s, toString (e + tz)]]) ∧
    (∀ (e tz : Int), fromtimestamp e tz = e ↔ tz = 0) ∧
    (∀ (t a : String) (lk : Int) (pa : String),
      decodeYoutubeItem (yItemOf t a lk pa) = .ok ⟨t, a, lk, pa⟩) := by
  refine ⟨?_, ?_, ?_⟩
  · intro tz b a s e
    simp [scrape_reddit_thread, redditRows, commentsList, replaceMoreList,
      replaceMoreNode, commentReplies, decodeRedditNode, fromtimestamp,
      redditFrame, rRowCells]
  · intro e tz
    simp only [fromtimestamp]
    omega
  · intro t a lk pa
    rfl

/-- Claim C4 (confirmed): scraping [r1, r2, r3] concatenates the rows of
the three single-thread scrapes in that order, each row tagged with its
own thread url; a store on which r1 fails or yields nothing simply
contributes no rows while r2 and r3 are still processed, and empty results
vanish from the concatenation rather than leaving placeholders. -/
theorem collect_many_concatenation :
    ∀ (store : RedditStore) (tz : Int) (r1 r2 r3 : String),
      (scrape_multiple_reddit_threads store tz [r1, r2, r3]).rows =
        (scrape_reddit_thread store tz r1 true).rows.map (fun r => r ++ [r1]) ++
        ((scrape_reddit_thread store tz r2 true).rows.map (fun r => r ++ [r2]) ++
          (scrape_reddit_thread store tz r3 true).rows.map (fun r => r ++ [r3])) := by
  intro store tz r1 r2 r3
  simpa using multi_rows store tz [r1, r2, r3]

/-- Claim C8 as stated is false: the empty CollectionResult the pipeline
produces for a video with zero comments is pd.DataFrame([]), which has no
columns, so save_to_csv writes a single empty line — not the header row of
canonical field names. -/
theorem empty_export_counterexample :
    save_to_csv (scrape_youtube_comments [Except.ok ⟨[], none⟩]) = "\n" ∧
    ¬ save_to_csv (scrape_youtube_comments [Except.ok ⟨[], none⟩]) =
      "comment,author,likes,published_at\n" := by
  constructor
  · decide
  · decide

/-- Claim C8 (corrected): exporting the zero-row result the scraper
produces yields a file holding one empty line, because a frame built from
zero records carries no columns; only a zero-row frame that already
carries the canonical columns exports as exactly the canonical header line
with no data rows. -/
theorem empty_export_amended :
    (∀ store : List (Except String YResponse),
      (scrape_youtube_comments store).rows = [] →
      save_to_csv (scrape_youtube_comments store) = "\n") ∧
    save_to_csv ⟨youtubeCols, []⟩ = "comment,author,likes,published_at\n" ∧
    save_to_csv ⟨redditCols, []⟩ = "comment,author,score,created_utc\n" := by
  refine ⟨?_, by decide, by decide⟩
  intro store h
  have hframe : scrape_youtube_comments store = emptyFrame := by
    unfold scrape_youtube_comments at h ⊢
    cases hl : youtubePageLoop store [] with
    | error e => simp [hl]
    | ok rows =>
      rw [hl] at h
      show youtubeFrame rows = emptyFrame
      cases hemp : rows.isEmpty with
      | true => simp [youtubeFrame, hemp]
      | false =>
        exfalso
        simp only [youtubeFrame, hemp, Bool.false_eq_true, if_false] at h
        have : rows = [] := by simpa using h
        rw [this] at hemp
        simp at hemp
  rw [hframe]
  decide

theorem empty_export_amended_witness :
    (scrape_youtube_comments [Except.ok ⟨[], none⟩]).rows = [] ∧
    save_to_csv (scrape_youtube_comments [Except.ok ⟨[], none⟩]) = "\n" :=
  ⟨by decide, empty_export_amended.1 [Except.ok ⟨[], none⟩] (by decide)⟩

/-- Claim C9 as stated is false: a single-resource scrape records no
resource identifier at all — the frame of a one-comment thread has exactly
the four canonical columns, and neither its columns nor its only row
contain the thread url anywhere. -/
theorem source_id_single_counterexample :
    (scrape_reddit_thread exStoreC9 0 exUrlC9 true).rows =
      [["hi", "bob", "5", "0"]] ∧
    (scrape_reddit_thread exStoreC9 0 exUrlC9 true).columns = redditCols ∧
    redditCols.contains exUrlC9 = false ∧
    (["hi", "bob", "5", "0"] : List String).contains exUrlC9 = false := by
  refine ⟨?_, ?_, by decide, by decide⟩
  · simp [scrape_reddit_thread, redditRows, exStoreC9, exForestC9,
      commentsList, replaceMoreList, replaceMoreNode, commentReplies,
      decodeRedditNode, fromtimestamp, redditFrame, rRowCells,
      redditCols]
    decide
  · simp [scrape_reddit_thread, redditRows, exStoreC9, exForestC9,
      commentsList, replaceMoreList, replaceMoreNode, commentReplies,
      decodeRedditNode, fromtimestamp, redditFrame, rRowCells,
      redditCols]

/-- Claim C9 (corrected): the resource identifier is recorded only when
aggregating multiple threads — scrape_multiple_reddit_threads appends each
thread's url as the source_url cell of every one of that thread's rows —
while a single-resource scrape never carries a source_url column. -/
theorem source_id_only_in_multi :
    (∀ (store : RedditStore) (tz : Int) (u : String) (us : List String),
      (scrape_multiple_reddit_threads store tz (u :: us)).rows =
        (scrape_reddit_thread store tz u true).rows.map (fun r => r ++ [u]) ++
          (scrape_multiple_reddit_threads store tz us).rows) ∧
    (∀ (store : RedditStore) (tz : Int) (u : String) (inc : Bool),
      (scrape_reddit_thread store tz u inc).columns.contains "source_url" =
        false) := by
  constructor
  · intro store tz u us
    rw [multi_rows store tz (u :: us), multi_rows store tz us]
    simp
  · intro store tz u inc
    cases h : redditRows store tz u inc with
    | error e => simp [scrape_reddit_thread, h, emptyFrame]
    | ok rows =>
      cases hemp : rows.isEmpty with
      | true => simp [scrape_reddit_thread, h, redditFrame, hemp, emptyFrame]
      | false =>
        simp only [scrape_reddit_thread, h, redditFrame, hemp,
          Bool.false_eq_true, if_false]
        decide

/-- Claim C10 (confirmed): the multi-thread path always scrapes each
thread with include_replies=True (the call at line 195 passes no second
argument), so for any store the multi result of one url equals the
reply-inclusive single scrape tagged with the url, and on the two-top-two-
reply example thread the multi path yields all 4 comments while the
top-level-only mode — unreachable from the multi path — would yield 2. -/
theorem multi_threads_include_replies :
    (∀ (store : RedditStore) (tz : Int) (u : String),
      (scrape_multiple_reddit_threads store tz [u]).rows =
        (scrape_reddit_thread store tz u true).rows.map (fun r => r ++ [u])) ∧
    (scrape_multiple_reddit_threads exStoreC6 0 [exUrlC6]).rows.length = 4 ∧
    (scrape_reddit_thread exStoreC6 0 exUrlC6 false).rows.length = 2 := by
  refine ⟨?_, ?_, by decide⟩
  · intro store tz u
    simpa using multi_rows store tz [u]
  · rw [multi_rows exStoreC6 0 [exUrlC6]]
    simp only [List.map_cons, List.map_nil, List.flatten_cons,
      List.flatten_nil, List.append_nil, List.length_map]
    simp [scrape_reddit_thread, redditRows, exStoreC6, exForestC6,
      commentsList, replaceMoreList, replaceMoreNode, commentReplies,
      decodeRedditNode, fromtimestamp, redditFrame, rRowCells, redditCols]

end WebScraping
